import Mathlib

/-
Verification of the natural-language specification of
digitalbazaar/bedrock-web-profile-manager against a shallow Lean embedding
of its `ProfileManager` class (the 2019-2020 `ProfileManager.js`, given as
`src/unnamed/part_001`).

Modelling conventions:
- JavaScript `undefined` for an optional value is `Option.none`; reading a
  property of `undefined` raises a `TypeError` (`undefReadError`).
- `async` methods are sequentialized: a method is a function in the monad
  `M`, which threads the manager state, short-circuits on a thrown error,
  and records every call to an external collaborator (profile service,
  EDV service, KMS) in a trace.  `Promise.all [a, b, ...]` is run left to
  right with the first rejection propagating.
- Helper modules of the repository that are not under `src/`
  (`assert.js`, `utils.js`, `cache.js`) are modelled from the spec; each
  such definition carries a doc comment starting with `Modelled from the
  spec:`.
-/

namespace PM

/-- Association-list lookup, mirroring a JavaScript object keyed by strings
(first matching key wins; keys are unique by construction of `setA`). -/
def lookupA (k : String) : List (String × α) → Option α
  | [] => none
  | (k', v) :: t => if k' = k then some v else lookupA k t

/-- Association-list insert-or-replace, mirroring a JavaScript property
assignment (or a later key in an object literal overriding an earlier one). -/
def setA (k : String) (v : α) : List (String × α) → List (String × α)
  | [] => [(k, v)]
  | (k', v') :: t => if k' = k then (k', v) :: t else (k', v') :: setA k v t

/-- Association-list delete, mirroring `Map.prototype.delete`. -/
def delA (k : String) : List (String × α) → List (String × α)
  | [] => []
  | (k', v') :: t => if k' = k then t else (k', v') :: delA k t

/-- JavaScript template-literal rendering of a possibly-undefined string:
`undefined` interpolates as the text "undefined". -/
def jsStr : Option String → String
  | some s => s
  | none => "undefined"

/-- JavaScript truthiness of a possibly-undefined string: `undefined` and
the empty string are falsy. -/
def strTruthy : Option String → Bool
  | some s => !s.isEmpty
  | none => false

/-- Decide whether the first list starts the second. -/
def listPre [DecidableEq α] : List α → List α → Bool
  | [], _ => true
  | _ :: _, [] => false
  | a :: as, b :: bs => if a = b then listPre as bs else false

/-- Decide whether the first list occurs contiguously inside the second. -/
def listSub [DecidableEq α] (n : List α) : List α → Bool
  | [] => listPre n []
  | b :: bs => listPre n (b :: bs) || listSub n bs

/-- JavaScript `String.prototype.startsWith`, computed over the character
list. -/
def jsStartsWith (s pre : String) : Bool := listPre pre.data s.data

/-- JavaScript `String.prototype.endsWith`, computed over the character
list. -/
def jsEndsWith (s suf : String) : Bool := listPre suf.data.reverse s.data.reverse

/-- A thrown JavaScript error: `TypeError` or plain `Error`, with message. -/
inductive JsError where
  | typeError : String → JsError
  | error : String → JsError
deriving DecidableEq, Repr

/-- Message of a thrown error. -/
def JsError.message : JsError → String
  | .typeError m => m
  | .error m => m

/-- The `TypeError` the JavaScript runtime raises when a property of
`undefined` is read (property access on a missing value). -/
def undefReadError (prop : String) : JsError :=
  .typeError ("Cannot read properties of undefined (reading \"" ++ prop ++ "\")")

/-- The `TypeError` raised when destructuring a property out of `undefined`. -/
def destructureError (prop : String) : JsError :=
  .typeError ("Cannot destructure property \"" ++ prop ++ "\" as it is undefined.")

/-- A key API object `{id, type}` (an hmac or key-agreement key handle). -/
structure KeyRef where
  id : String
  type : String
deriving DecidableEq, Repr

/-- An `invocationTarget` object; fields may be absent (for the object that
results from spreading `undefined`). -/
structure InvocationTarget where
  id : Option String
  type : Option String
  verificationMethod : Option String
deriving DecidableEq, Repr

/-- The value of a zcap `invocationTarget` field: a bare URL string or an
object. -/
inductive InvTarget where
  | str : String → InvTarget
  | obj : InvocationTarget → InvTarget
deriving DecidableEq, Repr

/-- A zcap `allowedAction`: a single action string or an array of actions. -/
inductive AllowedAction where
  | one : String → AllowedAction
  | many : List String → AllowedAction
deriving DecidableEq, Repr

mutual
/-- A capability (zcap) object, with the fields the embedded code reads:
`referenceId`, `allowedAction`, `controller`, `invocationTarget`,
`parentCapability`.  Absent fields are `none`. -/
inductive Zcap where
  | mk : (referenceId : String) → (allowedAction : Option AllowedAction) →
      (controller : Option String) → (invocationTarget : Option InvTarget) →
      (parentCapability : Option Parent) → Zcap
/-- A `parentCapability` value: a root-capability URL string or a full
capability object. -/
inductive Parent where
  | url : String → Parent
  | cap : Zcap → Parent
end

/-- Reference id of a zcap. -/
def Zcap.referenceId : Zcap → String
  | .mk r _ _ _ _ => r

/-- Allowed action of a zcap. -/
def Zcap.allowedAction : Zcap → Option AllowedAction
  | .mk _ a _ _ _ => a

/-- Controller of a zcap. -/
def Zcap.controller : Zcap → Option String
  | .mk _ _ c _ _ => c

/-- Invocation target of a zcap. -/
def Zcap.invocationTarget : Zcap → Option InvTarget
  | .mk _ _ _ t _ => t

/-- Parent capability of a zcap. -/
def Zcap.parentCapability : Zcap → Option Parent
  | .mk _ _ _ _ p => p

/-- The object produced by `{...edv.invocationTarget}` when the source value
has no such property (spreading `undefined` yields an empty object). -/
def emptyTarget : InvocationTarget := ⟨none, none, none⟩

/-- JavaScript object-spread of a possibly-absent invocation target:
spreading `undefined` (or the absent property of a string) yields `{}`. -/
def spreadTarget : Option InvTarget → InvocationTarget
  | some (.obj t) => t
  | some (.str _) => emptyTarget
  | none => emptyTarget

/-- A capability object is always truthy in JavaScript; this lets the
embedding keep the source's truthiness guards verbatim. -/
def zcapTruthy (_ : Zcap) : Bool := true

/-- An EDV index specification `{attribute, unique}`; a missing `unique`
is falsy, modelled as `false` (the source field name is `attribute`,
a reserved word in Lean). -/
structure IndexSpec where
  attr : String
  unique : Bool
deriving DecidableEq, Repr

/-- The `type` field of caller-supplied content: absent, a single string,
or an array of strings. -/
inductive TypeField where
  | absent
  | single : String → TypeField
  | multi : List String → TypeField
deriving DecidableEq, Repr

/-- Normalization performed by the source: a missing `type` defaults to
`[]` and a non-array is wrapped in a one-element array. -/
def TypeField.toList : TypeField → List String
  | .absent => []
  | .single s => [s]
  | .multi l => l

/-- Caller-supplied profile content (the fields the source reads: `type`
and `zcaps`; other content passes through unread and is not modelled). -/
structure ProfileContent where
  type : TypeField
  zcaps : List (String × Zcap)

/-- The `zcaps` descriptor inside `accessManagement`: reference ids of the
write and revocation capabilities, when given. -/
structure AMZcapRefs where
  write : Option String
  revoke : Option String
deriving DecidableEq, Repr

/-- The access-management descriptor attached to a profile. -/
structure AccessManagement where
  hmac : KeyRef
  keyAgreementKey : KeyRef
  indexes : List IndexSpec
  zcaps : AMZcapRefs
  edvId : Option String
deriving DecidableEq, Repr

/-- The content of the profile's user document as written by the bootstrap. -/
structure Profile where
  id : String
  type : List String
  accessManagement : AccessManagement
  zcaps : List (String × Zcap)

/-- Caller-supplied content for the initial profile agent. -/
structure ProfileAgentContentArg where
  name : Option String
  type : TypeField

/-- The content of the root profile agent's user document. -/
structure ProfileAgentDoc where
  name : String
  id : String
  type : List String
  zcaps : List (String × Zcap)
  authorizedDate : String

/-- The `profileAgent` part of a backend profile-agent record. -/
structure ProfileAgentInfo where
  id : String
  profile : String
  account : String
  sequence : Nat
  zcaps : List (String × Zcap)

/-- A backend profile-agent record. -/
structure AgentRecord where
  profileAgent : ProfileAgentInfo

/-- Profile-agent content as returned by `getAgent`: the agent id and a
capability map keyed by reference id. -/
structure AgentContent where
  id : String
  zcaps : List (String × Zcap)

/-- The account's signing identity (`CapabilityAgent` of webkms-client,
consumed interface only): its id and the id of the signer that
`getSigner()` returns. -/
structure CapAgent where
  id : String
  signerId : String

/-- An invocation signer: the capability agent's own key signer, or an
`AsymmetricKey` wrapping a capability and an inner signer. -/
inductive Signer where
  | capKey : String → Signer
  | asymmetric : Zcap → Signer → Signer

/-- JavaScript read of `signer.id`.  For the account's key signer this is
its key id; for an `AsymmetricKey` the collaborator derives it from the
wrapped capability's invocation target (consumed interface). -/
def Signer.jsId : Signer → String
  | .capKey i => i
  | .asymmetric c _ =>
    match c.invocationTarget with
    | some (.obj t) => jsStr t.id
    | some (.str s) => s
    | none => "undefined"

/-- A keystore configuration (consumed interface of the KMS client). -/
structure KeystoreM where
  id : String

/-- A `KeystoreAgent` (consumed interface): keystore plus the handle of the
capability agent it was constructed with. -/
structure KeystoreAgentM where
  keystore : KeystoreM
  capabilityAgentHandle : String

/-- An EDV client instance (consumed interface): the construction data the
source supplies. -/
structure EdvClientM where
  id : Option String
  kakId : Option String
  hmacId : Option String
  indexes : List IndexSpec

/-- Register an index on an EDV client (`ensureIndex`; idempotent
registration is a collaborator concern, modelled as an append). -/
def EdvClientM.ensureIndex (c : EdvClientM) (i : IndexSpec) : EdvClientM :=
  { c with indexes := c.indexes ++ [i] }

/-- A storage `Collection` view. -/
structure CollectionM where
  type : Option String
  edvClient : EdvClientM
  capability : Zcap

/-- An `AccessManager` view. -/
structure AccessManagerM where
  profile : Profile
  users : CollectionM

/-- An EDV configuration as built by `createProfileEdv`. -/
structure EdvConfig where
  sequence : Nat
  controller : String
  referenceId : Option String
  keyAgreementKey : KeyRef
  hmac : KeyRef
  id : Option String

/-- A value stored in the manager's internal cache namespaces. -/
inductive CVal where
  | zcap : Zcap → CVal
  | signer : Signer → CVal
  | record : AgentRecord → CVal
  | content : AgentContent → CVal

/-- The content of an EDV document write. -/
inductive DocContent where
  | profileDoc : Profile → DocContent
  | agentDoc : ProfileAgentDoc → DocContent

/-- One call to an external collaborator (profile service, EDV service,
KMS, or the collaborator-level caches). -/
inductive CollabCall where
  | getAgentByProfile : String → Option String → CollabCall
  | delegateAgentCapabilities : Option String → String → Option String → CollabCall
  | updateAgentCapabilitySet : Option String → String → List (String × Zcap) → CollabCall
  | edvGenerateId : CollabCall
  | edvWrite : String → DocContent → CollabCall
  | edvRead : CollabCall
  | createEdv : EdvConfig → CollabCall
  | getKeystore : String → CollabCall
  | generateKey : String → CollabCall
  | clearCapAgentCache : Option String → CollabCall
  | edvClientCacheClear : CollabCall
  | capAgentFromCache : Option String → CollabCall
  | capAgentFromSecret : Option String → CollabCall

/-- A cache namespace stored under `this._cache`. -/
abbrev NamespaceMap := List (String × CVal)

/-- The mutable state of a `ProfileManager` instance that the embedded
methods read or write. -/
structure MgrState where
  accountId : Option String
  capabilityAgent : Option CapAgent
  keystoreAgent : Option Unit
  cache : List (String × NamespaceMap)
  requests : List (String × (Except JsError CVal))
  idCtr : Nat

/-- A fresh manager state bound to an account, as after constructor plus
session binding, with all caches empty. -/
def initState (accountId : Option String) (ca : Option CapAgent) : MgrState :=
  { accountId := accountId, capabilityAgent := ca, keystoreAgent := none,
    cache := [], requests := [], idCtr := 0 }

/-- Oracle for collaborator responses: what each external call returns. -/
structure Env where
  agentRecord : String → AgentRecord
  delegatedAgentZcap : Option String → Zcap
  genId : Nat → String
  readProfile : Profile
  agentDocContent : AgentContent
  keystore : String → KeystoreM
  genKey : String → KeyRef
  createEdvId : String
  capAgentCache : Option String → Option CapAgent
  freshCapAgent : Option String → CapAgent
  now : String

/-- The method monad: threads the manager state, short-circuits on a thrown
error, and accumulates the collaborator-call trace. -/
def M (α : Type) : Type :=
  MgrState → Except JsError α × MgrState × List CollabCall

/-- Monad unit for `M`. -/
def M.pure (a : α) : M α := fun s => (Except.ok a, s, [])

/-- Monad bind for `M`: sequence two computations, concatenating traces and
short-circuiting on a thrown error. -/
def M.bind (x : M α) (f : α → M β) : M β := fun s =>
  match x s with
  | (Except.ok a, s1, t1) =>
    match f a s1 with
    | (r, s2, t2) => (r, s2, t1 ++ t2)
  | (Except.error e, s1, t1) => (Except.error e, s1, t1)

instance instMonadM : Monad M where
  pure := M.pure
  bind := M.bind

/-- Throw a JavaScript error. -/
def M.throw (e : JsError) : M α := fun s => (Except.error e, s, [])

/-- Record one collaborator call in the trace. -/
def M.emit (c : CollabCall) : M Unit := fun s => (Except.ok (), s, [c])

/-- Read the manager state. -/
def M.getS : M MgrState := fun s => (Except.ok s, s, [])

/-- Update the manager state. -/
def M.modify (f : MgrState → MgrState) : M Unit := fun s => (Except.ok (), f s, [])

/-- Run a computation and reify its outcome (the sequential rendering of
awaiting a promise inside try/finally). -/
def M.attempt (x : M α) : M (Except JsError α) := fun s =>
  match x s with
  | (r, s1, t1) => (Except.ok r, s1, t1)

/-- Re-raise a reified outcome. -/
def M.lift (r : Except JsError α) : M α := fun s => (r, s, [])

/-- `this._cache.has(ns)`. -/
def cacheHas (ns : String) : M Bool := fun s =>
  (Except.ok (lookupA ns s.cache).isSome, s, [])

/-- `this._cache.set(ns, new Cache())`. -/
def cacheNewNs (ns : String) : M Unit :=
  M.modify fun s => { s with cache := setA ns [] s.cache }

/-- `this._cache.get(ns).get(key)`.  The source always creates the
namespace before reading it, so a missing namespace reads as empty. -/
def nsGet (ns key : String) : M (Option CVal) := fun s =>
  (Except.ok (lookupA key ((lookupA ns s.cache).getD [])), s, [])

/-- `this._cache.get(ns).set(key, v)` (mutates the namespace object held
in the outer cache). -/
def nsSet (ns key : String) (v : CVal) : M Unit :=
  M.modify fun s =>
    { s with cache := setA ns (setA key v ((lookupA ns s.cache).getD [])) s.cache }

/-- `this._requests.get(key)`: the settled result a concurrent caller would
share (the denotation of the stored promise). -/
def reqGet (key : String) : M (Option (Except JsError CVal)) := fun s =>
  (Except.ok (lookupA key s.requests), s, [])

/-- `this._requests.set(key, promise)`. -/
def reqSet (key : String) (v : Except JsError CVal) : M Unit :=
  M.modify fun s => { s with requests := setA key v s.requests }

/-- `this._requests.delete(key)`. -/
def reqDel (key : String) : M Unit :=
  M.modify fun s => { s with requests := delA key s.requests }

/-- Modelled from the spec: `assert.nonEmptyString(value, name)` from the
repository module `assert.js` (not under `src/`).  The spec: identifier
validation is "rejected before any collaborator call, naming the offending
field", with the repository tests expecting a `TypeError` whose message
contains the field name.  The checked string is returned for convenient
binding (the source statement has no value). -/
def assertNonEmptyString (value : Option String) (name : String) : M String :=
  match value with
  | some s =>
    if s.isEmpty then
      M.throw (.typeError ("\"" ++ name ++ "\" must be a non-empty string."))
    else
      M.pure s
  | none => M.throw (.typeError ("\"" ++ name ++ "\" must be a non-empty string."))

/-- Modelled from the spec: the delegation utility `utils.delegateCapability`
of the repository module `utils.js` (not under `src/`).  The spec consumes it
as "delegate(signer, request) → signed capability (attaches the cryptographic
delegation proof; out of scope here)": the signed capability carries the
request's fields and the proof is out of scope, so the request is returned.
The optional keystore id accepted by the utility is not used by any claim. -/
def utils.delegateCapability (_signer : Signer) (request : Zcap)
    (_keystoreId : Option String) : Zcap :=
  request

/-- Modelled from the spec: `utils.deriveKeystoreId` of the missing
`utils.js` module.  Neither the spec nor any claim constrains the derived
value, so the key id itself is used as the keystore id. -/
def utils.deriveKeystoreId (id : String) : String := id

/-- JavaScript read of `zcap.invocationTarget.id`: throws when the target is
absent; the `id` property of a string target is `undefined`. -/
def Zcap.targetId (z : Zcap) : M (Option String) :=
  match z.invocationTarget with
  | none => M.throw (undefReadError "id")
  | some (.str _) => M.pure none
  | some (.obj t) => M.pure t.id

/-- JavaScript read of `zcap.invocationTarget.type`. -/
def Zcap.targetType (z : Zcap) : M (Option String) :=
  match z.invocationTarget with
  | none => M.throw (undefReadError "type")
  | some (.str _) => M.pure none
  | some (.obj t) => M.pure t.type

/-- JavaScript read of `parent.invocationTarget.id` on an
`edvParentCapability` value (a string or a capability object): the absent
property of a string reads as `undefined`, so the chained `.id` throws. -/
def Parent.targetIdJs : Parent → M String
  | .url _ => M.throw (undefReadError "id")
  | .cap z => M.bind z.targetId fun o => M.pure (jsStr o)

/-- Source `_getKeystoreId({zcap})` (part_001 lines 1104-1116). -/
def _getKeystoreId (zcap : Zcap) : M String :=
  match zcap.invocationTarget with
  | none => M.throw (.error "\"invocationTarget\" not found on zCap.")
  | some (.str s) => M.pure (utils.deriveKeystoreId s)
  | some (.obj t) =>
    match t.id with
    | some i =>
      if i.isEmpty then
        M.throw (.error "\"invocationTarget\" does not contain a proper id.")
      else
        M.pure (utils.deriveKeystoreId i)
    | none => M.throw (.error "\"invocationTarget\" does not contain a proper id.")

/-- Source `_getProfileInvocationZcapKeyReferenceId({profileId, zcaps})`
(part_001 lines 1118-1128): scan the map's keys for a reference id that
starts with the profile id and ends with the fixed suffix. -/
def _getProfileInvocationZcapKeyReferenceId (profileId : String)
    (zcaps : List (String × Zcap)) : Option String :=
  (zcaps.map Prod.fst).find? fun referenceId =>
    jsStartsWith referenceId profileId &&
      jsEndsWith referenceId "-key-capabilityInvocation"

/-- Recover a zcap from a shared in-flight result (the stored promise always
holds a zcap at these keys; any other shape is unreachable from the source). -/
def castZcap : Except JsError CVal → M Zcap
  | Except.ok (CVal.zcap z) => M.pure z
  | Except.ok _ => M.throw (.error "unreachable: non-zcap in-flight value")
  | Except.error e => M.throw e

/-- Recover an agent record from a shared in-flight result. -/
def castRecord : Except JsError CVal → M AgentRecord
  | Except.ok (CVal.record r) => M.pure r
  | Except.ok _ => M.throw (.error "unreachable: non-record in-flight value")
  | Except.error e => M.throw e

/-- Recover agent content from a shared in-flight result. -/
def castContent : Except JsError CVal → M AgentContent
  | Except.ok (CVal.content c) => M.pure c
  | Except.ok _ => M.throw (.error "unreachable: non-content in-flight value")
  | Except.error e => M.throw e

/-- Read `this.capabilityAgent`, throwing the runtime error a property read
on `null` would raise (property name supplied by the caller). -/
def readCapAgent (prop : String) : M CapAgent := fun s =>
  match s.capabilityAgent with
  | some ca => (Except.ok ca, s, [])
  | none => (Except.error (undefReadError prop), s, [])

/-- Source `_getInvocationSigner({profileAgentId, capabilityInvoker})`
(part_001 lines 987-1022). -/
def _getInvocationSigner (env : Env) (profileAgentId : Option String)
    (capabilityInvoker : Option String) : M Signer := do
  let _ ← assertNonEmptyString capabilityInvoker "capabilityInvoker"
  let hasNs ← cacheHas "invocation-signers"
  if !hasNs then cacheNewNs "invocation-signers" else M.pure ()
  let cacheKey := jsStr profileAgentId ++ "-" ++ jsStr capabilityInvoker
  let cached ← nsGet "invocation-signers" cacheKey
  match cached with
  | some (CVal.signer sg) => M.pure sg
  | some _ => M.throw (.error "unreachable: non-signer cache value")
  | none => do
    let signer ←
      if capabilityInvoker = some "local" then do
        let ca ← readCapAgent "getSigner"
        M.pure (Signer.capKey ca.signerId)
      else if capabilityInvoker = some "agent" then do
        if !(strTruthy profileAgentId) then
          M.throw (.error "\"profileAgentId\" is required for an agent signer.")
        else M.pure ()
        let ca ← readCapAgent "id"
        let st ← M.getS
        M.emit (.delegateAgentCapabilities st.accountId ca.id profileAgentId)
        let zcap := env.delegatedAgentZcap profileAgentId
        M.pure (Signer.asymmetric zcap (Signer.capKey ca.signerId))
      else
        M.throw (.error "Unsupported invoker for capability.")
    nsSet "invocation-signers" cacheKey (CVal.signer signer)
    M.pure signer

/-- Source `_getAgentRecord({profileId})` (part_001 lines 865-892): a
short-lived cache (max age 250ms; no time passes inside one sequential run,
so entries read as fresh) in front of the request coalescer in front of the
profile service. -/
def _getAgentRecord (env : Env) (profileId : String) : M AgentRecord := do
  let hasNs ← cacheHas "agent-records"
  if !hasNs then cacheNewNs "agent-records" else M.pure ()
  let recordKey := "agent-records-" ++ profileId
  let cached ← nsGet "agent-records" recordKey
  match cached with
  | some (CVal.record r) => M.pure r
  | some _ => M.throw (.error "unreachable: non-record cache value")
  | none => do
    let inflight ← reqGet recordKey
    match inflight with
    | some res => castRecord res
    | none => do
      let st ← M.getS
      M.emit (.getAgentByProfile profileId st.accountId)
      let record := env.agentRecord profileId
      reqSet recordKey (Except.ok (CVal.record record))
      nsSet "agent-records" recordKey (CVal.record record)
      reqDel recordKey
      M.pure record

/-- The loop `for zcap of Object.values(profileAgent.zcaps):
content.zcaps[zcap.referenceId] = zcap` (part_001 lines 119-121), keyed
in insertion order. -/
def buildZcapMapByRef (zs : List (String × Zcap)) : List (String × Zcap) :=
  zs.foldl (fun acc p => setA p.2.referenceId p.2 acc) []

/-- Source `getCapability({id, profileAgent, profileId, capabilityInvoker})`
(part_001 lines 140-202).  The profile agent argument is used only through
its `id` and `zcaps` properties, so agent content stands for both shapes the
source passes.  The request-coalescer entry is set before the body settles
and removed in the finally block; sequentially the body is run first and the
set/delete pair is replayed around the result. -/
def getCapability (env : Env) (id : Option String) (profileAgent : AgentContent)
    (profileId : Option String) (capabilityInvoker : String) : M Zcap := do
  let capabilityCacheKey := "profileAgent-" ++ profileAgent.id ++ "-zcaps"
  let capabilityKey := capabilityCacheKey ++ "-" ++ jsStr id ++ "-" ++ capabilityInvoker
  let hasNs ← cacheHas capabilityCacheKey
  if !hasNs then cacheNewNs capabilityCacheKey else M.pure ()
  let inflight ← reqGet capabilityKey
  match inflight with
  | some res => castZcap res
  | none => do
    let body : M Zcap := do
      let cached ← nsGet capabilityCacheKey capabilityKey
      match cached with
      | some (CVal.zcap z) => M.pure z
      | some _ => M.throw (.error "unreachable: non-zcap cache value")
      | none => do
        let agentSigner ← _getInvocationSigner env (some profileAgent.id) (some "agent")
        let id2 ←
          if id = some "profile-capability-invocation-key" then do
            let pid ← assertNonEmptyString profileId "profileId"
            M.pure (_getProfileInvocationZcapKeyReferenceId pid profileAgent.zcaps)
          else
            M.pure id
        match lookupA (jsStr id2) profileAgent.zcaps with
        | none =>
          M.throw (.error ("The agent \"" ++ profileAgent.id ++
            "\" does not have the zcap: \"" ++ jsStr id2 ++ "\""))
        | some originalZcap => do
          let zcap ←
            if capabilityInvoker = "local" then do
              let localSigner ← _getInvocationSigner env none (some "local")
              M.pure (utils.delegateCapability agentSigner
                (Zcap.mk originalZcap.referenceId originalZcap.allowedAction
                  (some localSigner.jsId) originalZcap.invocationTarget
                  (some (Parent.cap originalZcap))) none)
            else if capabilityInvoker = "agent" then
              M.pure originalZcap
            else
              M.throw (.error "Unsupported invoker for capability.")
          nsSet capabilityCacheKey capabilityKey (CVal.zcap zcap)
          M.pure zcap
    let r ← M.attempt body
    reqSet capabilityKey (r.map CVal.zcap)
    reqDel capabilityKey
    M.lift r

/-- Source `_getAgentContent({profileAgentRecord, capabilityInvoker})`
(part_001 lines 894-961).  The source reads the agent-content cache but
never writes it. -/
def _getAgentContent (env : Env) (profileAgentRecord : AgentRecord)
    (capabilityInvoker : String) : M AgentContent := do
  let hasNs ← cacheHas "agent-content"
  if !hasNs then cacheNewNs "agent-content" else M.pure ()
  let pa := profileAgentRecord.profileAgent
  let contentKey := pa.id ++ pa.account ++ pa.profile ++ toString pa.sequence
  let cached ← nsGet "agent-content" contentKey
  match cached with
  | some (CVal.content c) => M.pure c
  | some _ => M.throw (.error "unreachable: non-content cache value")
  | none => do
    let capability ← getCapability env (some "userDocument") ⟨pa.id, pa.zcaps⟩
      none capabilityInvoker
    let userKak ← getCapability env (some "userKak") ⟨pa.id, pa.zcaps⟩
      none capabilityInvoker
    let _invocationSigner ← _getInvocationSigner env (some pa.id) (some capabilityInvoker)
    if !(zcapTruthy capability) then
      M.throw (.error "Profile access management not initialized.")
    else M.pure ()
    let inflight ← reqGet contentKey
    match inflight with
    | some res => castContent res
    | none => do
      let body : M AgentContent := do
        let _kid ← userKak.targetId
        let _kty ← userKak.targetType
        M.emit .edvRead
        let content := env.agentDocContent
        M.pure ⟨content.id,
          pa.zcaps.foldl (fun acc p =>
            if (lookupA p.2.referenceId acc).isSome then acc
            else setA p.2.referenceId p.2 acc) content.zcaps⟩
      let r ← M.attempt body
      reqSet contentKey (r.map CVal.content)
      reqDel contentKey
      M.lift r

/-- Source `getAgent({profileId})` (part_001 lines 104-126): when the agent
record has no `userDocument` capability, synthesize content from the record
without touching the EDV. -/
def getAgent (env : Env) (profileId : Option String) : M AgentContent := do
  let pid ← assertNonEmptyString profileId "profileId"
  let profileAgentRecord ← _getAgentRecord env pid
  let pa := profileAgentRecord.profileAgent
  match lookupA "userDocument" pa.zcaps with
  | none => M.pure ⟨pa.id, buildZcapMapByRef pa.zcaps⟩
  | some _ => _getAgentContent env profileAgentRecord "local"

/-- Source `getProfileSigner({profileId, capabilityInvoker})`
(part_001 lines 455-474): wrap the profile's capability-invocation zcap in
an `AsymmetricKey` signer. -/
def getProfileSigner (env : Env) (profileId : Option String)
    (capabilityInvoker : String) : M Signer := do
  let pid ← assertNonEmptyString profileId "profileId"
  let profileAgent ← getAgent env (some pid)
  let zcap ← getCapability env (some "profile-capability-invocation-key")
    profileAgent (some pid) capabilityInvoker
  let inner ← _getInvocationSigner env (some profileAgent.id) (some capabilityInvoker)
  M.pure (Signer.asymmetric zcap inner)

/-- Source `getProfileKeystoreAgent({profileId})` (part_001 lines 555-567). -/
def getProfileKeystoreAgent (env : Env) (profileId : Option String) :
    M KeystoreAgentM := do
  let pid ← assertNonEmptyString profileId "profileId"
  let invocationSigner ← getProfileSigner env (some pid) "local"
  let zcap ←
    match invocationSigner with
    | Signer.asymmetric c _ => M.pure c
    | Signer.capKey _ => M.throw (destructureError "invocationTarget")
  let keystoreId ← _getKeystoreId zcap
  M.emit (.getKeystore keystoreId)
  M.pure ⟨env.keystore keystoreId, "primary"⟩

/-- Source `createEdvRecipientKeys({profileId})` (part_001 lines 570-583):
generate a key-agreement key and an hmac key; returns `(hmac,
keyAgreementKey)` in the order of the source's return object. -/
def createEdvRecipientKeys (env : Env) (profileId : Option String) :
    M (KeyRef × KeyRef) := do
  let _keystoreAgent ← getProfileKeystoreAgent env profileId
  M.emit (.generateKey "keyAgreement")
  let keyAgreementKey := env.genKey "keyAgreement"
  M.emit (.generateKey "hmac")
  let hmac := env.genKey "hmac"
  M.pure (hmac, keyAgreementKey)

/-- Source `getProfile({id, capabilityInvoker})` (part_001 lines 491-538).
The source's fallback `|| getCapability(user-edv-documents)` never evaluates:
a resolved capability object is always truthy and an absent capability makes
`getCapability` throw. -/
def getProfile (env : Env) (id : Option String) (capabilityInvoker : String) :
    M Profile := do
  let pid ← assertNonEmptyString id "id"
  let profileAgent ← getAgent env (some pid)
  let capability ← getCapability env (some "profile-edv-document") profileAgent
    none capabilityInvoker
  let userKakZcap ← getCapability env (some "user-edv-kak") profileAgent
    none capabilityInvoker
  let _invocationSigner ← _getInvocationSigner env (some profileAgent.id)
    (some capabilityInvoker)
  if !(zcapTruthy capability) then
    M.throw (.error ("Profile agent \"" ++ profileAgent.id ++
      "\" is not authorized to read profile \"" ++ pid ++ "\"."))
  else M.pure ()
  let _kid ← userKakZcap.targetId
  let _kty ← userKakZcap.targetType
  M.emit .edvRead
  M.pure env.readProfile

/-- Source `getAccessManager({profileId, capabilityInvoker})`
(part_001 lines 585-627).  `Promise.all` pairs are run left to right. -/
def getAccessManager (env : Env) (profileId : Option String)
    (capabilityInvoker : String) : M AccessManagerM := do
  let pid ← assertNonEmptyString profileId "profileId"
  let profile ← getProfile env (some pid) "local"
  let profileAgent ← getAgent env (some pid)
  let capability ← getCapability env (some "user-edv-documents") profileAgent
    none capabilityInvoker
  let userKak ← getCapability env (some "user-edv-kak") profileAgent
    none capabilityInvoker
  let userHmac ← getCapability env (some "user-edv-hmac") profileAgent
    none capabilityInvoker
  let _invocationSigner ← _getInvocationSigner env (some profileAgent.id)
    (some capabilityInvoker)
  if !(zcapTruthy capability && zcapTruthy userKak && zcapTruthy userHmac) then
    M.throw (.error ("Profile agent \"" ++ profileAgent.id ++
      "\" is not authorized to manage access for profile \"" ++ pid ++ "\"."))
  else M.pure ()
  let kid ← userKak.targetId
  let _kty ← userKak.targetType
  let hid ← userHmac.targetId
  let _hty ← userHmac.targetType
  let edvClient := profile.accessManagement.indexes.foldl EdvClientM.ensureIndex
    ⟨profile.accessManagement.edvId, kid, hid, []⟩
  M.pure ⟨profile, ⟨some "User", edvClient, capability⟩⟩

/-- Source `createProfileEdv({profileId, referenceId})`
(part_001 lines 629-653). -/
def createProfileEdv (env : Env) (profileId : Option String)
    (referenceId : Option String) : M EdvClientM := do
  let pid ← assertNonEmptyString profileId "profileId"
  let _invocationSigner ← getProfileSigner env (some pid) "local"
  let (hm, kak) ← createEdvRecipientKeys env (some pid)
  let config : EdvConfig :=
    { sequence := 0, controller := pid, referenceId := referenceId,
      keyAgreementKey := ⟨kak.id, kak.type⟩, hmac := ⟨hm.id, hm.type⟩,
      id := none }
  M.emit (.createEdv config)
  let config2 := { config with id := some env.createEdvId }
  M.pure ⟨config2.id, some kak.id, some hm.id, []⟩

/-- The `parentCapabilities` override object: each entry, when present, is a
root-capability URL string or a capability object. -/
structure ParentCaps where
  edv : Option Parent
  edvRevocations : Option Zcap
  hmac : Option Parent
  keyAgreementKey : Option Parent

/-- JavaScript read of `override.invocationTarget` on a `parentCapabilities`
entry: a string value has no such property (reads as `undefined`). -/
def parentTarget : Parent → Option InvTarget
  | .url _ => none
  | .cap z => z.invocationTarget

/-- Source `delegateEdvCapabilities({edvId, hmac, keyAgreementKey,
parentCapabilities, invocationSigner, profileAgentId, referenceIdPrefix})`
(part_001 lines 655-739).  The validation announced by the source's TODO
comment (lines 664-667) is absent: a missing fresh key with a missing
override reaches a property read on `undefined`. -/
def delegateEdvCapabilities (env : Env) (edvId : Option String)
    (hmac keyAgreementKey : Option KeyRef)
    (parentCapabilities : Option ParentCaps) (invocationSigner : Signer)
    (profileAgentId : String) (referenceIdPre : String) : M (List Zcap) := do
  let _ := env
  let docReq ←
    if strTruthy edvId then
      M.pure (Zcap.mk (referenceIdPre ++ "-edv-documents")
        (some (.many ["read", "write"])) (some profileAgentId)
        (some (.obj ⟨some (jsStr edvId ++ "/documents"),
          some "urn:edv:documents", none⟩))
        (some (.url (jsStr edvId ++ "/zcaps/documents"))))
    else
      match parentCapabilities with
      | none => M.throw (destructureError "edv")
      | some pc =>
        match pc.edv with
        | none => M.throw (undefReadError "invocationTarget")
        | some edv =>
          M.pure (Zcap.mk (referenceIdPre ++ "-edv-documents")
            (some (.many ["read", "write"])) (some profileAgentId)
            (some (.obj (spreadTarget (parentTarget edv)))) (some edv))
  let hmacReq ←
    match hmac with
    | some h =>
      M.pure (Zcap.mk (referenceIdPre ++ "-edv-hmac") (some (.one "sign"))
        (some profileAgentId)
        (some (.obj ⟨some h.id, some h.type, some h.id⟩))
        (some (.url h.id)))
    | none =>
      match parentCapabilities with
      | none => M.throw (destructureError "hmac")
      | some pc =>
        match pc.hmac with
        | none => M.throw (undefReadError "invocationTarget")
        | some hz =>
          M.pure (Zcap.mk (referenceIdPre ++ "-edv-hmac") (some (.one "sign"))
            (some profileAgentId)
            (some (.obj (spreadTarget (parentTarget hz)))) (some hz))
  let kakReq ←
    match keyAgreementKey with
    | some k =>
      M.pure (Zcap.mk (referenceIdPre ++ "-edv-kak")
        (some (.many ["deriveSecret", "sign"])) (some profileAgentId)
        (some (.obj ⟨some k.id, some k.type, some k.id⟩))
        (some (.url k.id)))
    | none =>
      match parentCapabilities with
      | none => M.throw (destructureError "keyAgreementKey")
      | some pc =>
        match pc.keyAgreementKey with
        | none => M.throw (undefReadError "invocationTarget")
        | some kz =>
          M.pure (Zcap.mk (referenceIdPre ++ "-edv-kak")
            (some (.many ["deriveSecret", "sign"])) (some profileAgentId)
            (some (.obj (spreadTarget (parentTarget kz)))) (some kz))
  M.pure [utils.delegateCapability invocationSigner docReq none,
    utils.delegateCapability invocationSigner hmacReq none,
    utils.delegateCapability invocationSigner kakReq none]

/-- Source `delegateCapability({profileId, request})`
(part_001 lines 741-747). -/
def delegateCapability (env : Env) (profileId : Option String)
    (request : Zcap) : M Zcap := do
  let pid ← assertNonEmptyString profileId "profileId"
  let signer ← getProfileSigner env (some pid) "local"
  let keystoreAgent ← getProfileKeystoreAgent env (some pid)
  M.pure (utils.delegateCapability signer request (some keystoreAgent.keystore.id))

/-- Source `getProfileEdvAccess({profileId, referenceIdPrefix,
capabilityInvoker})` (part_001 lines 758-804): resolve the documents, kak
and hmac capabilities for the prefix and assemble an EDV client. -/
def getProfileEdvAccess (env : Env) (profileId : Option String)
    (referenceIdPre : Option String) (capabilityInvoker : String) :
    M (EdvClientM × Zcap × Signer) := do
  let pid ← assertNonEmptyString profileId "profileId"
  let docsRef := jsStr referenceIdPre ++ "-edv-documents"
  let hmacRef := jsStr referenceIdPre ++ "-edv-hmac"
  let kakRef := jsStr referenceIdPre ++ "-edv-kak"
  let profileAgent ← getAgent env (some pid)
  let documentsZcap ← getCapability env (some docsRef) profileAgent
    none capabilityInvoker
  let kakZcap ← getCapability env (some kakRef) profileAgent
    none capabilityInvoker
  let hmacZcap ← getCapability env (some hmacRef) profileAgent
    none capabilityInvoker
  let invocationSigner ← _getInvocationSigner env (some profileAgent.id)
    (some capabilityInvoker)
  if !(zcapTruthy documentsZcap && zcapTruthy hmacZcap && zcapTruthy kakZcap) then
    M.throw (.error ("Profile agent \"" ++ profileAgent.id ++
      "\" is not authorized to access profile \"" ++ pid ++ "\"."))
  else M.pure ()
  let kid ← kakZcap.targetId
  let _kty ← kakZcap.targetType
  let hid ← hmacZcap.targetId
  let _hty ← hmacZcap.targetType
  M.pure (⟨none, kid, hid, []⟩, documentsZcap, invocationSigner)

/-- Source `getCollection({profileId, referenceIdPrefix, type})`
(part_001 lines 749-756). -/
def getCollection (env : Env) (profileId : Option String)
    (referenceIdPre : Option String) (type : Option String) : M CollectionM := do
  let pid ← assertNonEmptyString profileId "profileId"
  let (edvClient, capability, _invocationSigner) ←
    getProfileEdvAccess env (some pid) referenceIdPre "local"
  let edvClient2 := (edvClient.ensureIndex ⟨"content.id", true⟩).ensureIndex
    ⟨"content.type", false⟩
  M.pure ⟨type, edvClient2, capability⟩

/-- Source `_delegateProfileUserDocZcap({edvId, profileAgentId, docId,
invocationTarget, edvParentCapability, invocationSigner})`
(part_001 lines 1026-1052). -/
def _delegateProfileUserDocZcap (edvId : Option String)
    (profileAgentId docId : String) (invocationTarget : Option InvocationTarget)
    (edvParentCapability : Parent) (invocationSigner : Signer) : M Zcap := do
  let target ←
    match invocationTarget with
    | some t => M.pure t
    | none => do
      let documentsUrl ←
        if strTruthy edvId then M.pure (jsStr edvId ++ "/documents")
        else edvParentCapability.targetIdJs
      M.pure (⟨some (documentsUrl ++ "/" ++ docId), some "urn:edv:document",
        none⟩ : InvocationTarget)
  M.pure (utils.delegateCapability invocationSigner
    (Zcap.mk "profile-edv-document" (some (.many ["read"]))
      (some profileAgentId) (some (.obj target)) (some edvParentCapability))
    none)

/-- Source `_delegateAgentRecordZcaps({edvId, profileAgentId, docId,
invocationTarget, edvParentCapability, keyAgreementKey, invocationSigner})`
(part_001 lines 1054-1101): the read-only capability for the agent's own
document plus the key-agreement capability, as a map keyed the way the
source's return object is. -/
def _delegateAgentRecordZcaps (edvId : Option String)
    (profileAgentId docId : String) (invocationTarget : Option InvocationTarget)
    (edvParentCapability : Parent) (keyAgreementKey : KeyRef)
    (invocationSigner : Signer) : M (List (String × Zcap)) := do
  let target ←
    match invocationTarget with
    | some t => M.pure t
    | none => do
      let documentsUrl ←
        if strTruthy edvId then M.pure (jsStr edvId ++ "/documents")
        else edvParentCapability.targetIdJs
      M.pure (⟨some (documentsUrl ++ "/" ++ docId), some "urn:edv:document",
        none⟩ : InvocationTarget)
  let userDocumentZcap := utils.delegateCapability invocationSigner
    (Zcap.mk "profile-agent-edv-document" (some (.many ["read"]))
      (some profileAgentId) (some (.obj target)) (some edvParentCapability))
    none
  let userKakZcap := utils.delegateCapability invocationSigner
    (Zcap.mk "user-edv-kak" (some (.many ["deriveSecret", "sign"]))
      (some profileAgentId)
      (some (.obj ⟨some keyAgreementKey.id, some keyAgreementKey.type,
        some keyAgreementKey.id⟩))
      (some (.url keyAgreementKey.id))) none
  M.pure [("userDocument", userDocumentZcap), ("userKak", userKakZcap)]

/-- The source's type-merging loop (part_001 lines 327-336 and 384-393):
append each caller-supplied type not already present, in first-seen order. -/
def typeFold (base : List String) (caller : List String) : List String :=
  caller.foldl (fun acc t => if acc.contains t then acc else acc ++ [t]) base

/-- Source `initializeAccessManagement({...})` (part_001 lines 238-438),
with its callees embedded above.  The statement
`const {profileManager} = this;` (line 262) reads a property the
constructor never assigns, so the no-recipient-keys branch calls a method
on `undefined` and throws. -/
def initializeAccessManagement (env : Env)
    (profileId : Option String)
    (profileContent : ProfileContent)
    (profileAgentContent : ProfileAgentContentArg)
    (hmac keyAgreementKey : Option KeyRef)
    (edvId : Option String)
    (capability : Option Zcap)
    (revocationCapability : Option Zcap)
    (indexes : List IndexSpec)
    (capabilityInvoker : String) : M (Profile × ProfileAgentDoc) := do
  let pid ← assertNonEmptyString profileId "profileId"
  if xor hmac.isSome keyAgreementKey.isSome then
    M.throw (.typeError ("Both \"hmac\" and \"keyAgreementKey\" must be " ++
      "given or neither must be given."))
  else M.pure ()
  if strTruthy edvId = capability.isSome then
    M.throw (.typeError "Either \"edvId\" and \"capability\" must be given, not both.")
  else M.pure ()
  let (hm, kak) ←
    match hmac with
    | none => M.throw (undefReadError "createEdvRecipientKeys")
    | some h =>
      match keyAgreementKey with
      | some k => M.pure (h, k)
      | none => M.throw (.error "unreachable: guarded by the xor check above")
  let accessManagement0 : AccessManagement :=
    { hmac := ⟨hm.id, hm.type⟩, keyAgreementKey := ⟨kak.id, kak.type⟩,
      indexes := [⟨"content.id", true⟩, ⟨"content.type", false⟩] ++ indexes,
      zcaps := ⟨none, none⟩, edvId := none }
  let (capabilityV, accessManagement, profileZcaps) ←
    match capability with
    | some c =>
      let pz := setA c.referenceId c profileContent.zcaps
      let am := { accessManagement0 with zcaps := ⟨some c.referenceId, none⟩ }
      (match revocationCapability with
      | some rc =>
        M.pure (Parent.cap c,
          { am with zcaps := ⟨some c.referenceId, some rc.referenceId⟩ },
          setA rc.referenceId rc pz)
      | none => M.pure (Parent.cap c, am, pz))
    | none =>
      M.pure (Parent.url (jsStr edvId ++ "/zcaps/documents"),
        { accessManagement0 with edvId := edvId }, profileContent.zcaps)
  let _client := accessManagement.indexes.foldl EdvClientM.ensureIndex
    ⟨edvId, some kak.id, some hm.id, []⟩
  let profileAgentRecord ← _getAgentRecord env pid
  let pa := profileAgentRecord.profileAgent
  let profileAgentId := pa.id
  let pcikEntry := lookupA "profileCapabilityInvocationKey" pa.zcaps
  let invocationSigner ← getProfileSigner env (some pid) capabilityInvoker
  M.emit .edvGenerateId
  let st ← M.getS
  let profileDocId := env.genId st.idCtr
  M.modify fun s => { s with idCtr := s.idCtr + 1 }
  let type1 := typeFold ["User", "Profile"] profileContent.type.toList
  let profile : Profile :=
    { id := pid, type := type1, accessManagement := accessManagement,
      zcaps := profileZcaps }
  M.emit (.edvWrite profileDocId (.profileDoc profile))
  let profileDocZcap ← _delegateProfileUserDocZcap edvId profileAgentId
    profileDocId none capabilityV invocationSigner
  let userEdvZcaps ← delegateEdvCapabilities env edvId (some hm) (some kak)
    (some ⟨some capabilityV, revocationCapability, none, none⟩)
    invocationSigner profileAgentId "user"
  M.emit .edvGenerateId
  let st2 ← M.getS
  let agentDocId := env.genId st2.idCtr
  M.modify fun s => { s with idCtr := s.idCtr + 1 }
  let type2 := typeFold ["User", "Agent"] profileAgentContent.type.toList
  let profileAgentZcaps := userEdvZcaps.foldl
    (fun acc z => setA z.referenceId z acc) []
  let pcik ←
    match pcikEntry with
    | some z => M.pure z
    | none => M.throw (undefReadError "referenceId")
  let agentZcaps := profileAgentZcaps.foldl (fun acc p => setA p.1 p.2 acc)
    (setA profileDocZcap.referenceId profileDocZcap
      (setA pcik.referenceId pcik []))
  let profileAgentDoc : ProfileAgentDoc :=
    { name := profileAgentContent.name.getD "root", id := profileAgentId,
      type := type2, zcaps := agentZcaps, authorizedDate := env.now }
  M.emit (.edvWrite agentDocId (.agentDoc profileAgentDoc))
  let agentRecordZcaps ← _delegateAgentRecordZcaps edvId profileAgentId
    agentDocId none capabilityV kak invocationSigner
  let stA ← M.getS
  M.emit (.updateAgentCapabilitySet stA.accountId profileAgentId agentRecordZcaps)
  M.pure (profile, profileAgentDoc)

/-- Source `_resetCache()` (part_001 lines 827-829): clear every internal
cache namespace. -/
def _resetCache : M Unit := M.modify fun s => { s with cache := [] }

/-- An `account` object inside session data. -/
structure SessionAccount where
  id : Option String
deriving DecidableEq, Repr

/-- The `newData` payload of a session-change notification. -/
structure SessionData where
  account : Option SessionAccount
deriving DecidableEq, Repr

/-- The source's `const {account = {}} = newData; const {id: newAccountId =
null} = account;`. -/
def SessionData.newAccountId (nd : SessionData) : Option String :=
  match nd.account with
  | some a => a.id
  | none => none

/-- Source `_sessionChanged({authentication, newData})`
(part_001 lines 831-863): conditional collaborator-cache purge, then
unconditional internal reset, then rebinding of the capability agent. -/
def _sessionChanged (env : Env) (authentication : Bool)
    (newData : SessionData) : M Unit := do
  let newAccountId := newData.newAccountId
  let st ← M.getS
  if strTruthy st.accountId && (st.accountId != newAccountId) then do
    M.emit (.clearCapAgentCache st.accountId)
    M.emit .edvClientCacheClear
  else M.pure ()
  M.modify fun s =>
    { s with
      accountId := newAccountId
      capabilityAgent := none
      keystoreAgent := none }
  _resetCache
  if !(authentication || newData.account.isSome) then
    M.pure ()
  else do
    M.emit (.capAgentFromCache newAccountId)
    match env.capAgentCache newAccountId with
    | some ca => M.modify fun s => { s with capabilityAgent := some ca }
    | none => do
      M.emit (.capAgentFromSecret newAccountId)
      M.modify fun s =>
        { s with capabilityAgent := some (env.freshCapAgent newAccountId) }

/-
Interleaved model of the request coalescer (`this._requests`), as used on a
single cache key by `getCapability` (part_001 lines 149-202) and
`_getAgentRecord` (lines 876-891).  JavaScript runs each synchronous
segment of a task atomically; the segment that matters here is atomic in
the source: from `this._requests.get(key)` through `this._requests.set(key,
promise)` there is no `await`, so checking for an in-flight entry and
installing one is a single step.  A task therefore either joins the stored
promise (`if(promise) return promise`) or starts the underlying
delegation/fetch execution and installs its promise.  When the execution
settles, every task awaiting it observes the same outcome and the creator's
finally block removes the entry, whether the outcome is fulfilment or
rejection.
-/

/-- The settled outcome of the one shared execution: resolution or
rejection, with an abstract payload. -/
inductive Outcome where
  | ok : String → Outcome
  | err : String → Outcome
deriving DecidableEq, Repr

/-- The phase of one concurrent caller of the keyed operation. -/
inductive TaskPhase where
  | pending
  | creator : Nat → TaskPhase
  | joiner : Nat → TaskPhase
  | finished : Nat → Outcome → TaskPhase
deriving DecidableEq, Repr

/-- State of the coalescer protocol for one cache key: the `_requests`
entry, a counter of execution ids, the executions started so far (each one
is a call into the underlying collaborator), and the callers. -/
structure CoState where
  inflight : Option Nat
  nextExec : Nat
  execs : List Nat
  tasks : List TaskPhase
deriving DecidableEq, Repr

/-- Initial state: no entry, no execution started, `n` callers about to run. -/
def coInit (n : Nat) : CoState :=
  ⟨none, 0, [], List.replicate n TaskPhase.pending⟩

/-- One atomic entry segment of a caller, before the execution settles:
either start the execution and install the in-flight entry (the miss branch
of the source), or join the already-installed entry (the hit branch). -/
inductive PreStep : CoState → CoState → Prop where
  | enter (s : CoState) (i : Nat) (h : s.tasks.get? i = some TaskPhase.pending)
      (hin : s.inflight = none) :
      PreStep s ⟨some s.nextExec, s.nextExec + 1, s.execs ++ [s.nextExec],
        s.tasks.set i (TaskPhase.creator s.nextExec)⟩
  | join (s : CoState) (i e : Nat) (h : s.tasks.get? i = some TaskPhase.pending)
      (hin : s.inflight = some e) :
      PreStep s ⟨s.inflight, s.nextExec, s.execs,
        s.tasks.set i (TaskPhase.joiner e)⟩

/-- Deliver the settled outcome of execution `e` to one task. -/
def settleTask (e : Nat) (o : Outcome) : TaskPhase → TaskPhase
  | .creator e' => if e' = e then .finished e o else .creator e'
  | .joiner e' => if e' = e then .finished e o else .joiner e'
  | p => p

/-- The settling of execution `e` with outcome `o`: every caller sharing the
promise observes `o`, and the creator's finally block removes the in-flight
entry (regardless of fulfilment or rejection). -/
def settle (e : Nat) (o : Outcome) (s : CoState) : CoState :=
  { inflight := if s.inflight = some e then none else s.inflight,
    nextExec := s.nextExec,
    execs := s.execs,
    tasks := s.tasks.map (settleTask e o) }

/-- Protocol invariant before any settling: either nothing has run, or
exactly one execution `e` has started, the in-flight entry holds `e`, and
every caller that has run its entry segment refers to `e`. -/
def CoInv (s : CoState) : Prop :=
  (s.inflight = none ∧ s.execs = [] ∧
    ∀ p ∈ s.tasks, p = TaskPhase.pending) ∨
  (∃ e, s.inflight = some e ∧ s.execs = [e] ∧
    ∀ p ∈ s.tasks, p = TaskPhase.pending ∨ p = TaskPhase.creator e ∨
      p = TaskPhase.joiner e)

/-- The initial state satisfies the invariant. -/
lemma coInv_init (n : Nat) : CoInv (coInit n) := by
  left
  refine ⟨rfl, rfl, ?_⟩
  intro p hp
  exact (List.eq_of_mem_replicate hp)

/-- Entry segments preserve the invariant. -/
lemma coInv_step {s s' : CoState} (h : PreStep s s') (inv : CoInv s) :
    CoInv s' := by
  cases h with
  | enter i h hin =>
    rcases inv with ⟨_, hex, hall⟩ | ⟨e, he, _, _⟩
    · right
      refine ⟨s.nextExec, rfl, by simp [hex], ?_⟩
      intro p hp
      rcases List.mem_or_eq_of_mem_set hp with hmem | rfl
      · exact Or.inl (hall p hmem)
      · exact Or.inr (Or.inl rfl)
    · rw [hin] at he
      exact absurd he (by simp)
  | join i e h hin =>
    rcases inv with ⟨hn, _, _⟩ | ⟨e', he', hex, hall⟩
    · rw [hin] at hn
      exact absurd hn (by simp)
    · right
      have hee : e = e' := by
        rw [hin] at he'
        exact Option.some.inj he'
      subst hee
      refine ⟨e, by simp [hin], hex, ?_⟩
      intro p hp
      rcases List.mem_or_eq_of_mem_set hp with hmem | rfl
      · exact hall p hmem
      · exact Or.inr (Or.inr rfl)

/-- Every state reachable by entry segments satisfies the invariant. -/
lemma coInv_reach {n : Nat} {s : CoState}
    (h : Relation.ReflTransGen PreStep (coInit n) s) : CoInv s := by
  induction h with
  | refl => exact coInv_init n
  | tail _ hstep ih => exact coInv_step hstep ih

/-- Substring test used to state facts about error messages. -/
def containsStr (needle hay : String) : Bool :=
  listSub needle.data hay.data

/-- A concrete access-management descriptor for witness runs. -/
def amA : AccessManagement :=
  ⟨⟨"h-1", "Sha256HmacKey2019"⟩, ⟨"k-1", "X25519KeyAgreementKey2019"⟩, [],
    ⟨none, none⟩, none⟩

/-- A concrete profile document for witness runs. -/
def profileA : Profile := ⟨"did:example:prof", ["User", "Profile"], amA, []⟩

/-- A featureless capability used as a collaborator response in witness runs. -/
def zDummy : Zcap := Zcap.mk "dummy" none none none none

/-- A backend agent record whose agent holds no capabilities. -/
def recB : AgentRecord := ⟨⟨"did:key:agent-1", "did:example:prof", "acct-1", 0, []⟩⟩

/-- A concrete collaborator oracle for witness runs. -/
def envB : Env where
  agentRecord := fun _ => recB
  delegatedAgentZcap := fun _ => zDummy
  genId := fun n => if n = 0 then "doc-0" else "doc-1"
  readProfile := profileA
  agentDocContent := ⟨"agent-doc", []⟩
  keystore := fun i => ⟨i⟩
  genKey := fun t => ⟨"key-" ++ t, t⟩
  createEdvId := "https://edvs/new"
  capAgentCache := fun _ => none
  freshCapAgent := fun _ => ⟨"did:key:ca", "did:key:ca-sig"⟩
  now := "2020-01-01T00:00:00Z"

/-- A concrete capability agent bound to the session account. -/
def caA : CapAgent := ⟨"did:key:ca", "did:key:ca-sig"⟩

/-- A fresh manager state bound to a concrete account. -/
def stA : MgrState := initState (some "acct-1") (some caA)

/-- C1: `delegateEdvCapabilities` called with fresh keys (`edvId`, `hmac`
and `keyAgreementKey` all supplied, the EDV id non-empty so it is truthy)
returns, for any `referenceIdPrefix`, exactly three capabilities: documents
(`{prefix}-edv-documents`, allowedAction `[read, write]`, controller the
profile agent id, target `{edvId}/documents` of type `urn:edv:documents`,
parent `{edvId}/zcaps/documents`), hmac (`{prefix}-edv-hmac`, allowedAction
`sign`, target the hmac key id/type, parent the hmac key id) and
key-agreement (`{prefix}-edv-kak`, allowedAction `[deriveSecret, sign]`,
target the key-agreement key id/type, parent the key-agreement key id);
no state change and no collaborator call occur. -/
theorem c1_delegation_completeness (env : Env) (s : MgrState) (e : String)
    (he : e.isEmpty = false) (h k : KeyRef) (pc : Option ParentCaps)
    (sg : Signer) (aid px : String) :
    delegateEdvCapabilities env (some e) (some h) (some k) pc sg aid px s =
      (Except.ok [
        Zcap.mk (px ++ "-edv-documents")
          (some (.many ["read", "write"])) (some aid)
          (some (.obj ⟨some (e ++ "/documents"), some "urn:edv:documents", none⟩))
          (some (.url (e ++ "/zcaps/documents"))),
        Zcap.mk (px ++ "-edv-hmac") (some (.one "sign")) (some aid)
          (some (.obj ⟨some h.id, some h.type, some h.id⟩))
          (some (.url h.id)),
        Zcap.mk (px ++ "-edv-kak")
          (some (.many ["deriveSecret", "sign"])) (some aid)
          (some (.obj ⟨some k.id, some k.type, some k.id⟩))
          (some (.url k.id))], s, []) := by
  simp [delegateEdvCapabilities, strTruthy, jsStr, he, utils.delegateCapability,
    M.bind, M.pure, Bind.bind, Pure.pure, instMonadM]

/-- C1 witness: the theorem applied at a concrete fresh-key call. -/
theorem c1_delegation_completeness_witness :
    ("https://edvs/e1" : String).isEmpty = false ∧
    delegateEdvCapabilities envB (some "https://edvs/e1")
      (some ⟨"https://kms/h1", "Sha256HmacKey2019"⟩)
      (some ⟨"https://kms/k1", "X25519KeyAgreementKey2019"⟩)
      (some ⟨none, none, none, none⟩) (Signer.capKey "sig") "did:key:aid" "x" stA =
      (Except.ok [
        Zcap.mk "x-edv-documents"
          (some (.many ["read", "write"])) (some "did:key:aid")
          (some (.obj ⟨some "https://edvs/e1/documents",
            some "urn:edv:documents", none⟩))
          (some (.url "https://edvs/e1/zcaps/documents")),
        Zcap.mk "x-edv-hmac" (some (.one "sign")) (some "did:key:aid")
          (some (.obj ⟨some "https://kms/h1", some "Sha256HmacKey2019",
            some "https://kms/h1"⟩))
          (some (.url "https://kms/h1")),
        Zcap.mk "x-edv-kak"
          (some (.many ["deriveSecret", "sign"])) (some "did:key:aid")
          (some (.obj ⟨some "https://kms/k1", some "X25519KeyAgreementKey2019",
            some "https://kms/k1"⟩))
          (some (.url "https://kms/k1"))], stA, []) := by
  refine ⟨rfl, ?_⟩
  have := c1_delegation_completeness envB stA "https://edvs/e1" rfl
    ⟨"https://kms/h1", "Sha256HmacKey2019"⟩
    ⟨"https://kms/k1", "X25519KeyAgreementKey2019"⟩
    (some ⟨none, none, none, none⟩) (Signer.capKey "sig") "did:key:aid" "x"
  simpa using this

/-- C2: evidence of the code bug.  When a resource has neither a fresh key
nor an override entry (no `hmac` argument and no `parentCapabilities.hmac`;
analogously for `edvId` and `keyAgreementKey`), `delegateEdvCapabilities`
does reject before any delegation (state unchanged, no collaborator call),
but the error is the runtime `TypeError` from reading `invocationTarget` of
`undefined` — its message does not name the missing field, contrary to the
claim and to the source's own TODO comment (part_001 lines 664-667). -/
theorem c2_missing_override_not_named :
    (delegateEdvCapabilities envB (some "https://edvs/e1") none
        (some ⟨"https://kms/k1", "X25519KeyAgreementKey2019"⟩)
        (some ⟨none, none, none, none⟩) (Signer.capKey "sig")
        "did:key:aid" "x" stA =
      (Except.error (undefReadError "invocationTarget"), stA, [])) ∧
    (delegateEdvCapabilities envB none
        (some ⟨"https://kms/h1", "Sha256HmacKey2019"⟩)
        (some ⟨"https://kms/k1", "X25519KeyAgreementKey2019"⟩)
        (some ⟨none, none, none, none⟩) (Signer.capKey "sig")
        "did:key:aid" "x" stA =
      (Except.error (undefReadError "invocationTarget"), stA, [])) ∧
    (delegateEdvCapabilities envB (some "https://edvs/e1")
        (some ⟨"https://kms/h1", "Sha256HmacKey2019"⟩) none
        (some ⟨none, none, none, none⟩) (Signer.capKey "sig")
        "did:key:aid" "x" stA =
      (Except.error (undefReadError "invocationTarget"), stA, [])) ∧
    containsStr "hmac" (undefReadError "invocationTarget").message = false ∧
    containsStr "edvId" (undefReadError "invocationTarget").message = false ∧
    containsStr "keyAgreementKey" (undefReadError "invocationTarget").message
      = false := by
  exact ⟨rfl, rfl, rfl, by decide, by decide, by decide⟩

/-- C4: evidence of the code bug.  `initializeAccessManagement` called with
neither `hmac` nor `keyAgreementKey` does not generate keys: the statement
`const {profileManager} = this;` (part_001 line 262) reads a property the
constructor never assigns, so the call throws the runtime `TypeError` for a
method call on `undefined` before any collaborator call (the trace is empty,
so in particular no key-generation call is made), contradicting the method's
own JSDoc (lines 221-225). -/
theorem c4_recipient_keys_not_generated :
    initializeAccessManagement envB (some "did:v1:test:abc")
      ⟨TypeField.absent, []⟩ ⟨none, TypeField.absent⟩ none none
      (some "https://edvs/e1") none none [] "local" stA =
      (Except.error (undefReadError "createEdvRecipientKeys"), stA, []) := by
  rfl

/-- A run that rejected with the validation error naming `field`, left the
manager state unchanged, and made no collaborator call. -/
def rejectsNaming (r : Except JsError α × MgrState × List CollabCall)
    (s : MgrState) (field : String) : Prop :=
  r.1 = Except.error (JsError.typeError
    ("\"" ++ field ++ "\" must be a non-empty string.")) ∧
  r.2.1 = s ∧ r.2.2 = []

/-- C3: every identifier-requiring public method (`getAgent`,
`getProfileSigner`, `getProfile`, `getProfileKeystoreAgent`,
`createProfileEdv`, `getAccessManager`, `getCollection`,
`getProfileEdvAccess`, `delegateCapability`, `initializeAccessManagement`)
called with its identifier `undefined` or `""` rejects with a `TypeError`
naming the offending field (`profileId`, or `id` for `getProfile`), leaves
the state unchanged, and invokes no collaborator operation. -/
theorem c3_validation_rejects (env : Env) (s : MgrState) (ci : String)
    (rid pfx ty : Option String) (req : Zcap) (pc0 : ProfileContent)
    (pac : ProfileAgentContentArg) (hm kk : Option KeyRef) (ei : Option String)
    (cap rev : Option Zcap) (idx : List IndexSpec) :
    rejectsNaming (getAgent env none s) s "profileId" ∧
    rejectsNaming (getAgent env (some "") s) s "profileId" ∧
    rejectsNaming (getProfileSigner env none ci s) s "profileId" ∧
    rejectsNaming (getProfileSigner env (some "") ci s) s "profileId" ∧
    rejectsNaming (getProfile env none ci s) s "id" ∧
    rejectsNaming (getProfile env (some "") ci s) s "id" ∧
    rejectsNaming (getProfileKeystoreAgent env none s) s "profileId" ∧
    rejectsNaming (getProfileKeystoreAgent env (some "") s) s "profileId" ∧
    rejectsNaming (createProfileEdv env none rid s) s "profileId" ∧
    rejectsNaming (createProfileEdv env (some "") rid s) s "profileId" ∧
    rejectsNaming (getAccessManager env none ci s) s "profileId" ∧
    rejectsNaming (getAccessManager env (some "") ci s) s "profileId" ∧
    rejectsNaming (getCollection env none pfx ty s) s "profileId" ∧
    rejectsNaming (getCollection env (some "") pfx ty s) s "profileId" ∧
    rejectsNaming (getProfileEdvAccess env none pfx ci s) s "profileId" ∧
    rejectsNaming (getProfileEdvAccess env (some "") pfx ci s) s "profileId" ∧
    rejectsNaming (delegateCapability env none req s) s "profileId" ∧
    rejectsNaming (delegateCapability env (some "") req s) s "profileId" ∧
    rejectsNaming (initializeAccessManagement env none pc0 pac hm kk ei cap
      rev idx ci s) s "profileId" ∧
    rejectsNaming (initializeAccessManagement env (some "") pc0 pac hm kk ei
      cap rev idx ci s) s "profileId" := by
  exact ⟨⟨rfl, rfl, rfl⟩, ⟨rfl, rfl, rfl⟩, ⟨rfl, rfl, rfl⟩, ⟨rfl, rfl, rfl⟩,
    ⟨rfl, rfl, rfl⟩, ⟨rfl, rfl, rfl⟩, ⟨rfl, rfl, rfl⟩, ⟨rfl, rfl, rfl⟩,
    ⟨rfl, rfl, rfl⟩, ⟨rfl, rfl, rfl⟩, ⟨rfl, rfl, rfl⟩, ⟨rfl, rfl, rfl⟩,
    ⟨rfl, rfl, rfl⟩, ⟨rfl, rfl, rfl⟩, ⟨rfl, rfl, rfl⟩, ⟨rfl, rfl, rfl⟩,
    ⟨rfl, rfl, rfl⟩, ⟨rfl, rfl, rfl⟩, ⟨rfl, rfl, rfl⟩, ⟨rfl, rfl, rfl⟩⟩

/-- The cache key `getCapability` stores a resolved capability under:
the profile-agent cache namespace key followed by the capability id and the
invoker mode, in the shape the source's template literal produces. -/
def capKeyOf (aid id mode : String) : String :=
  "profileAgent-" ++ aid ++ "-zcaps" ++ "-" ++ id ++ "-" ++ mode

/-- C5: `getCapability`, for a base capability present in the agent's map
(under an id other than the well-known invocation-key reference): with
invoker `agent` it returns the base capability unchanged; with invoker
`local` it returns a one-hop delegation whose controller is the local
signer's id and whose parent is the base capability, and caches that result
under the key composed of the profile agent id, the capability id and the
invoker mode; with any other invoker it throws the unsupported-invoker
error. -/
theorem c5_getCapability_modes (idS : String) (z : Zcap)
    (zs : List (String × Zcap))
    (h1 : idS ≠ "profile-capability-invocation-key")
    (h2 : lookupA idS zs = some z) :
    ((getCapability envB (some idS) ⟨"did:key:aid1", zs⟩ none "agent" stA).1 =
      Except.ok z) ∧
    ((getCapability envB (some idS) ⟨"did:key:aid1", zs⟩ none "local" stA).1 =
      Except.ok (Zcap.mk z.referenceId z.allowedAction (some "did:key:ca-sig")
        z.invocationTarget (some (Parent.cap z)))) ∧
    (lookupA (capKeyOf "did:key:aid1" idS "local")
      ((lookupA "profileAgent-did:key:aid1-zcaps"
        ((getCapability envB (some idS) ⟨"did:key:aid1", zs⟩ none "local"
          stA).2.1.cache)).getD []) =
      some (CVal.zcap (Zcap.mk z.referenceId z.allowedAction
        (some "did:key:ca-sig") z.invocationTarget (some (Parent.cap z))))) ∧
    (∀ v : String, v ≠ "local" → v ≠ "agent" →
      (getCapability envB (some idS) ⟨"did:key:aid1", zs⟩ none v stA).1 =
        Except.error (JsError.error "Unsupported invoker for capability.")) := by
  refine ⟨?_, ?_, ?_, ?_⟩
  · simp +decide [getCapability, _getInvocationSigner, assertNonEmptyString, cacheHas,
      cacheNewNs, nsGet, nsSet, reqGet, reqSet, reqDel, readCapAgent, lookupA,
      setA, delA, jsStr, strTruthy, M.bind, M.pure, M.throw, M.emit, M.getS,
      M.modify, M.attempt, M.lift, Bind.bind, Pure.pure, instMonadM, h1, h2,
      utils.delegateCapability, Signer.jsId, castZcap, stA, initState, caA,
      envB, zDummy]
  · simp +decide [getCapability, _getInvocationSigner, assertNonEmptyString, cacheHas,
      cacheNewNs, nsGet, nsSet, reqGet, reqSet, reqDel, readCapAgent, lookupA,
      setA, delA, jsStr, strTruthy, M.bind, M.pure, M.throw, M.emit, M.getS,
      M.modify, M.attempt, M.lift, Bind.bind, Pure.pure, instMonadM, h1, h2,
      utils.delegateCapability, Signer.jsId, castZcap, stA, initState, caA,
      envB, zDummy]
  · simp +decide [getCapability, _getInvocationSigner, assertNonEmptyString, cacheHas,
      cacheNewNs, nsGet, nsSet, reqGet, reqSet, reqDel, readCapAgent, lookupA,
      setA, delA, jsStr, strTruthy, M.bind, M.pure, M.throw, M.emit, M.getS,
      M.modify, M.attempt, M.lift, Bind.bind, Pure.pure, instMonadM, h1, h2,
      utils.delegateCapability, Signer.jsId, castZcap, stA, initState, caA,
      envB, zDummy, capKeyOf]
  · intro v hv1 hv2
    simp +decide [getCapability, _getInvocationSigner, assertNonEmptyString, cacheHas,
      cacheNewNs, nsGet, nsSet, reqGet, reqSet, reqDel, readCapAgent, lookupA,
      setA, delA, jsStr, strTruthy, M.bind, M.pure, M.throw, M.emit, M.getS,
      M.modify, M.attempt, M.lift, Bind.bind, Pure.pure, instMonadM, h1, h2,
      hv1, hv2, utils.delegateCapability, Signer.jsId, castZcap, stA,
      initState, caA, envB, zDummy]

/-- C5 witness: the theorem applied at a concrete capability map. -/
theorem c5_getCapability_modes_witness :
    ("x-zcap" : String) ≠ "profile-capability-invocation-key" ∧
    lookupA "x-zcap" [("x-zcap", Zcap.mk "x-zcap" none none none none)] =
      some (Zcap.mk "x-zcap" none none none none) ∧
    (getCapability envB (some "x-zcap")
      ⟨"did:key:aid1", [("x-zcap", Zcap.mk "x-zcap" none none none none)]⟩
      none "agent" stA).1 = Except.ok (Zcap.mk "x-zcap" none none none none) := by
  refine ⟨by decide, rfl, ?_⟩
  exact (c5_getCapability_modes "x-zcap" (Zcap.mk "x-zcap" none none none none)
    [("x-zcap", Zcap.mk "x-zcap" none none none none)] (by decide) rfl).1

/-- C6 counterexample: with a profile agent that has no capabilities, the
`getProfileEdvAccess` rejection is the error thrown inside capability
resolution, which names the profile agent and the missing reference id but
does not mention the profile id, refuting the claim that the failure names
both the profile agent id and the profile id. -/
theorem c6_missing_capability_counterexample :
    ((getProfileEdvAccess envB (some "did:example:prof") (some "x") "local"
        stA).1 =
      Except.error (JsError.error
        "The agent \"did:key:agent-1\" does not have the zcap: \"x-edv-documents\"")) ∧
    containsStr "did:example:prof"
      "The agent \"did:key:agent-1\" does not have the zcap: \"x-edv-documents\""
      = false ∧
    containsStr "did:key:agent-1"
      "The agent \"did:key:agent-1\" does not have the zcap: \"x-edv-documents\""
      = true := by
  exact ⟨by rfl, by decide, by decide⟩

/-- The witness oracle with a chosen backend agent record. -/
def envRec (r : AgentRecord) : Env := { envB with agentRecord := fun _ => r }

/-- A read-only capability for the profile's own user document. -/
def zPD : Zcap := Zcap.mk "profile-edv-document" none none
  (some (.obj ⟨some "https://edvs/e1/documents/d1", some "urn:edv:document",
    none⟩)) none

/-- A key-agreement capability under the default `user` prefix. -/
def zUK : Zcap := Zcap.mk "user-edv-kak" none none
  (some (.obj ⟨some "https://kms/k1", some "X25519KeyAgreementKey2019",
    none⟩)) none

/-- A documents capability under the default `user` prefix. -/
def zUD : Zcap := Zcap.mk "user-edv-documents" none none
  (some (.obj ⟨some "https://edvs/e1/documents", some "urn:edv:documents",
    none⟩)) none

/-- A documents capability under the `x` prefix. -/
def zXD : Zcap := Zcap.mk "x-edv-documents" none none
  (some (.obj ⟨some "https://edvs/e1/documents", some "urn:edv:documents",
    none⟩)) none

/-- A key-agreement capability under the `x` prefix. -/
def zXK : Zcap := Zcap.mk "x-edv-kak" none none
  (some (.obj ⟨some "https://kms/k1", some "X25519KeyAgreementKey2019",
    none⟩)) none

/-- An agent record holding only the `x`-prefixed documents capability. -/
def recXD : AgentRecord :=
  ⟨⟨"did:key:agent-1", "pr", "ac", 0, [("x-edv-documents", zXD)]⟩⟩

/-- An agent record holding the `x`-prefixed documents and key-agreement
capabilities but no hmac capability. -/
def recXDK : AgentRecord :=
  ⟨⟨"did:key:agent-1", "pr", "ac", 0,
    [("x-edv-documents", zXD), ("x-edv-kak", zXK)]⟩⟩

/-- An agent record holding only the profile-document capability (so the
`user-edv-kak` capability needed by `getProfile` is missing). -/
def recPD : AgentRecord :=
  ⟨⟨"did:key:agent-1", "pr", "ac", 0, [("profile-edv-document", zPD)]⟩⟩

/-- An agent record able to read the profile but missing
`user-edv-documents`. -/
def recPDK : AgentRecord :=
  ⟨⟨"did:key:agent-1", "pr", "ac", 0,
    [("profile-edv-document", zPD), ("user-edv-kak", zUK)]⟩⟩

/-- An agent record able to read the profile, with documents and
key-agreement capabilities but missing `user-edv-hmac`. -/
def recPDKD : AgentRecord :=
  ⟨⟨"did:key:agent-1", "pr", "ac", 0,
    [("profile-edv-document", zPD), ("user-edv-kak", zUK),
      ("user-edv-documents", zUD)]⟩⟩

/-- C6 amended: when a required capability (documents, hmac or
key-agreement) is missing from the profile agent's capability map,
`getProfileEdvAccess` and `getAccessManager` reject before their own
authorization guard with the capability-resolution error, whose message
names the profile agent id and the missing reference id (the profile id is
not part of the message).  Conjuncts: missing documents (for every profile
id and prefix), missing key-agreement, and missing hmac for
`getProfileEdvAccess`; missing `user-edv-kak` (hit while reading the
profile), missing `user-edv-documents`, and missing `user-edv-hmac` for
`getAccessManager`. -/
theorem c6_missing_capability_error (p pfx : String)
    (hp : p.isEmpty = false)
    (hne : pfx ++ "-edv-documents" ≠ "profile-capability-invocation-key") :
    ((getProfileEdvAccess envB (some p) (some pfx) "local" stA).1 =
      Except.error (JsError.error ("The agent \"did:key:agent-1\"" ++
        " does not have the zcap: \"" ++ (pfx ++ "-edv-documents") ++ "\""))) ∧
    ((getProfileEdvAccess (envRec recXD) (some "did:example:prof") (some "x")
        "local" stA).1 =
      Except.error (JsError.error
        "The agent \"did:key:agent-1\" does not have the zcap: \"x-edv-kak\"")) ∧
    ((getProfileEdvAccess (envRec recXDK) (some "did:example:prof") (some "x")
        "local" stA).1 =
      Except.error (JsError.error
        "The agent \"did:key:agent-1\" does not have the zcap: \"x-edv-hmac\"")) ∧
    ((getAccessManager (envRec recPD) (some "did:example:prof") "local"
        stA).1 =
      Except.error (JsError.error
        "The agent \"did:key:agent-1\" does not have the zcap: \"user-edv-kak\"")) ∧
    ((getAccessManager (envRec recPDK) (some "did:example:prof") "local"
        stA).1 =
      Except.error (JsError.error
        "The agent \"did:key:agent-1\" does not have the zcap: \"user-edv-documents\"")) ∧
    ((getAccessManager (envRec recPDKD) (some "did:example:prof") "local"
        stA).1 =
      Except.error (JsError.error
        "The agent \"did:key:agent-1\" does not have the zcap: \"user-edv-hmac\"")) := by
  refine ⟨?_, by rfl, by rfl, by rfl, by rfl, by rfl⟩
  simp +decide [getProfileEdvAccess, getAgent, _getAgentRecord, getCapability,
    _getInvocationSigner, assertNonEmptyString, buildZcapMapByRef, cacheHas,
    cacheNewNs, nsGet, nsSet, reqGet, reqSet, reqDel, readCapAgent, lookupA,
    setA, delA, jsStr, strTruthy, M.bind, M.pure, M.throw, M.emit, M.getS,
    M.modify, M.attempt, M.lift, Bind.bind, Pure.pure, instMonadM, hp, hne,
    utils.delegateCapability, Signer.jsId, castZcap, castRecord, stA,
    initState, caA, envB, recB, zDummy, zcapTruthy]

/-- C6 amended witness: the theorem applied at a concrete profile and
reference-id prefix. -/
theorem c6_missing_capability_error_witness :
    ("did:example:prof" : String).isEmpty = false ∧
    ("x" ++ "-edv-documents" : String) ≠ "profile-capability-invocation-key" ∧
    (getProfileEdvAccess envB (some "did:example:prof") (some "x") "local"
        stA).1 =
      Except.error (JsError.error ("The agent \"did:key:agent-1\"" ++
        " does not have the zcap: \"" ++ ("x" ++ "-edv-documents") ++ "\"")) := by
  exact ⟨rfl, by decide, (c6_missing_capability_error "did:example:prof" "x"
    rfl (by decide)).1⟩

/-- After any session change the internal cache is empty. -/
lemma sessionChanged_cache_empty (env : Env) (auth : Bool) (nd : SessionData)
    (s : MgrState) : ((_sessionChanged env auth nd s).2.1).cache = [] := by
  unfold _sessionChanged _resetCache
  simp only [M.bind, M.pure, M.emit, M.getS, M.modify, Bind.bind, Pure.pure,
    instMonadM]
  split <;> split <;> (try split) <;> rfl

/-- C7: on a session-change notification with a truthy previous account id
differing from the new one, the collaborator-level purges happen (the
`CapabilityAgent` cache entry for the old handle is cleared and the EDV
client cache is cleared), and the internal cache namespaces are empty
afterwards — indeed they are emptied on every session change, so no
internal cache entry survives rebinding: every namespace lookup after the
change misses. -/
theorem c7_session_change_reset (env : Env) (auth : Bool) (nd : SessionData)
    (s : MgrState) (a : String)
    (h1 : s.accountId = some a) (ha : a.isEmpty = false)
    (hd : nd.newAccountId ≠ some a) :
    ((_sessionChanged env auth nd s).2.1).cache = [] ∧
    (∀ ns k, lookupA k ((lookupA ns
      ((_sessionChanged env auth nd s).2.1).cache).getD []) = none) ∧
    CollabCall.clearCapAgentCache (some a) ∈ (_sessionChanged env auth nd s).2.2 ∧
    CollabCall.edvClientCacheClear ∈ (_sessionChanged env auth nd s).2.2 ∧
    (∀ (s2 : MgrState) (auth2 : Bool) (nd2 : SessionData),
      ((_sessionChanged env auth2 nd2 s2).2.1).cache = []) := by
  have hd' : ¬ (some a = nd.newAccountId) := fun hEq => hd hEq.symm
  refine ⟨sessionChanged_cache_empty env auth nd s, ?_, ?_, ?_,
    fun s2 a2 n2 => sessionChanged_cache_empty env a2 n2 s2⟩
  · intro ns k
    rw [sessionChanged_cache_empty]
    simp [lookupA]
  · by_cases haa : (!(auth || nd.account.isSome)) = true <;>
    rcases hcc : env.capAgentCache nd.newAccountId with _ | ca <;>
    simp [_sessionChanged, _resetCache, M.bind, M.pure, M.emit, M.getS,
      M.modify, Bind.bind, Pure.pure, instMonadM, haa, hcc, h1, strTruthy,
      ha, hd']
  · by_cases haa : (!(auth || nd.account.isSome)) = true <;>
    rcases hcc : env.capAgentCache nd.newAccountId with _ | ca <;>
    simp [_sessionChanged, _resetCache, M.bind, M.pure, M.emit, M.getS,
      M.modify, Bind.bind, Pure.pure, instMonadM, haa, hcc, h1, strTruthy,
      ha, hd']

/-- C7 witness: the theorem applied at a concrete account switch. -/
theorem c7_session_change_reset_witness :
    stA.accountId = some "acct-1" ∧
    ("acct-1" : String).isEmpty = false ∧
    (SessionData.newAccountId ⟨some ⟨some "acct-2"⟩⟩ ≠ some "acct-1") ∧
    ((_sessionChanged envB false ⟨some ⟨some "acct-2"⟩⟩ stA).2.1).cache = [] ∧
    CollabCall.clearCapAgentCache (some "acct-1") ∈
      (_sessionChanged envB false ⟨some ⟨some "acct-2"⟩⟩ stA).2.2 := by
  have h := c7_session_change_reset envB false ⟨some ⟨some "acct-2"⟩⟩ stA
    "acct-1" rfl rfl (by decide)
  exact ⟨rfl, rfl, by decide, h.1, h.2.2.1⟩

/-- C8: in the request-coalescer protocol of `getCapability` and
`_getAgentRecord`, if N concurrent callers of the same cache key all run
their entry segment before the shared execution settles, then exactly one
underlying delegation/fetch execution has started, the in-flight entry
holds it, and when it settles with any outcome (fulfilment or rejection)
every caller observes that same outcome and the in-flight entry is
removed. -/
theorem c8_coalescing (n : Nat) (s : CoState)
    (hreach : Relation.ReflTransGen PreStep (coInit n) s)
    (hall : ∀ p ∈ s.tasks, p ≠ TaskPhase.pending) (hne : s.tasks ≠ []) :
    ∃ e, s.execs = [e] ∧ s.inflight = some e ∧
      ∀ o : Outcome, (settle e o s).inflight = none ∧
        ∀ p ∈ (settle e o s).tasks, p = TaskPhase.finished e o := by
  have inv := coInv_reach hreach
  rcases inv with ⟨_, _, hall2⟩ | ⟨e, he, hex, hall2⟩
  · rcases List.exists_mem_of_ne_nil s.tasks hne with ⟨p, hp⟩
    exact absurd (hall2 p hp) (hall p hp)
  · refine ⟨e, hex, he, fun o => ⟨?_, ?_⟩⟩
    · simp [settle, he]
    · intro p hp
      simp only [settle, List.mem_map] at hp
      rcases hp with ⟨q, hq, rfl⟩
      rcases hall2 q hq with rfl | rfl | rfl
      · exact absurd rfl (hall _ hq)
      · simp [settleTask]
      · simp [settleTask]

/-- C8 witness: two concurrent callers, the first entering and the second
joining before the settle. -/
theorem c8_coalescing_witness :
    (∀ p ∈ (⟨some 0, 1, [0],
        [TaskPhase.creator 0, TaskPhase.joiner 0]⟩ : CoState).tasks,
      p ≠ TaskPhase.pending) ∧
    (∃ e, (⟨some 0, 1, [0],
        [TaskPhase.creator 0, TaskPhase.joiner 0]⟩ : CoState).execs = [e] ∧
      (⟨some 0, 1, [0],
        [TaskPhase.creator 0, TaskPhase.joiner 0]⟩ : CoState).inflight = some e ∧
      ∀ o : Outcome,
        (settle e o ⟨some 0, 1, [0],
          [TaskPhase.creator 0, TaskPhase.joiner 0]⟩).inflight = none ∧
        ∀ p ∈ (settle e o ⟨some 0, 1, [0],
            [TaskPhase.creator 0, TaskPhase.joiner 0]⟩).tasks,
          p = TaskPhase.finished e o) := by
  have step1 : PreStep (coInit 2)
      ⟨some 0, 1, [0], [TaskPhase.creator 0, TaskPhase.pending]⟩ :=
    PreStep.enter (coInit 2) 0 rfl rfl
  have step2 : PreStep
      (⟨some 0, 1, [0], [TaskPhase.creator 0, TaskPhase.pending]⟩ : CoState)
      ⟨some 0, 1, [0], [TaskPhase.creator 0, TaskPhase.joiner 0]⟩ :=
    PreStep.join _ 1 0 rfl rfl
  have hreach : Relation.ReflTransGen PreStep (coInit 2)
      ⟨some 0, 1, [0], [TaskPhase.creator 0, TaskPhase.joiner 0]⟩ :=
    Relation.ReflTransGen.tail (Relation.ReflTransGen.tail
      Relation.ReflTransGen.refl step1) step2
  exact ⟨by decide, c8_coalescing 2 _ hreach (by decide) (by decide)⟩

/-- C10: for a profile agent whose record has no `userDocument` capability,
`getAgent` does not fail: it returns synthesized content carrying the
agent's id and every capability of the record keyed by its reference id,
and the only collaborator call is the profile-service record fetch — the
EDV is not contacted. -/
theorem c10_uninitialized_agent (p aid acct prof : String) (seqn : Nat)
    (zs : List (String × Zcap)) (hp : p.isEmpty = false)
    (hud : lookupA "userDocument" zs = none) :
    (getAgent (envRec ⟨⟨aid, prof, acct, seqn, zs⟩⟩) (some p) stA).1 =
      Except.ok ⟨aid, buildZcapMapByRef zs⟩ ∧
    (getAgent (envRec ⟨⟨aid, prof, acct, seqn, zs⟩⟩) (some p) stA).2.2 =
      [CollabCall.getAgentByProfile p (some "acct-1")] := by
  constructor <;>
  simp +decide [getAgent, _getAgentRecord, assertNonEmptyString, cacheHas,
    cacheNewNs, nsGet, nsSet, reqGet, reqSet, reqDel, lookupA, setA, delA,
    jsStr, M.bind, M.pure, M.throw, M.emit, M.getS, M.modify, Bind.bind,
    Pure.pure, instMonadM, hp, hud, castRecord, stA, initState, caA, envRec,
    envB]

/-- C10 witness: the theorem applied at a concrete record without a
`userDocument` capability. -/
theorem c10_uninitialized_agent_witness :
    ("did:example:prof" : String).isEmpty = false ∧
    lookupA "userDocument"
      [("cap-a", Zcap.mk "ref-a" none none none none)] = none ∧
    (getAgent (envRec ⟨⟨"did:key:agent-9", "did:example:prof", "acct-1", 0,
        [("cap-a", Zcap.mk "ref-a" none none none none)]⟩⟩)
      (some "did:example:prof") stA).1 =
      Except.ok ⟨"did:key:agent-9",
        buildZcapMapByRef [("cap-a", Zcap.mk "ref-a" none none none none)]⟩ := by
  exact ⟨rfl, rfl, (c10_uninitialized_agent "did:example:prof"
    "did:key:agent-9" "acct-1" "did:example:prof" 0
    [("cap-a", Zcap.mk "ref-a" none none none none)] rfl rfl).1⟩

/-- The type-merging loop only appends: the result extends the base list. -/
lemma typeFold_extends (l base : List String) :
    ∃ r, typeFold base l = base ++ r := by
  induction l generalizing base with
  | nil => exact ⟨[], (List.append_nil base).symm⟩
  | cons t ts ih =>
    have hstep : typeFold base (t :: ts) =
        typeFold (if base.contains t then base else base ++ [t]) ts := rfl
    by_cases hmem : base.contains t = true
    · rcases ih base with ⟨r, hr⟩
      refine ⟨r, ?_⟩
      rw [hstep, if_pos hmem, hr]
    · rcases ih (base ++ [t]) with ⟨r, hr⟩
      refine ⟨[t] ++ r, ?_⟩
      rw [hstep, if_neg hmem, hr, List.append_assoc]

/-- The merged type list starts with the two mandatory entries. -/
lemma typeFold_take_two (l : List String) (a b : String) :
    (typeFold [a, b] l).take 2 = [a, b] := by
  rcases typeFold_extends l [a, b] with ⟨r, hr⟩
  rw [hr]
  rfl

/-- The backend agent record used for the bootstrap theorem: the root agent
with its capability-invocation-key zcap. -/
def recOf (prof acct : String) (sq : Nat) (pcik : Zcap) : AgentRecord :=
  ⟨⟨"did:key:root-agent", prof, acct, sq,
    [("profileCapabilityInvocationKey", pcik)]⟩⟩

/-- C9: a successful `initializeAccessManagement` run given an EDV id and
recipient keys returns a profile snapshot whose
`accessManagement.edvId` equals the supplied EDV id, whose `type` is
`[User, Profile]` followed by each caller-supplied type not already present
in first-seen order (in particular it begins with `User`, `Profile`), and a
profile-agent snapshot with a non-empty capability map. -/
theorem c9_bootstrap_shape (p e prof acct : String) (sq : Nat)
    (h k : KeyRef) (rp : String) (aa : Option AllowedAction)
    (cc : Option String) (it : Option InvTarget) (pp : Option Parent)
    (tf tf2 : TypeField) (nm : Option String)
    (pz : List (String × Zcap)) (idx : List IndexSpec)
    (hp : p.isEmpty = false) (he : e.isEmpty = false)
    (hsw : jsStartsWith rp p = true)
    (hew : jsEndsWith rp "-key-capabilityInvocation" = true)
    (hne1 : rp ≠ "profile-edv-document")
    (hne2 : rp ≠ "user-edv-documents")
    (hne3 : rp ≠ "user-edv-hmac")
    (hne4 : rp ≠ "user-edv-kak") :
    ((initializeAccessManagement (envRec (recOf prof acct sq (Zcap.mk rp aa cc it pp))) (some p)
        ⟨tf, pz⟩ ⟨nm, tf2⟩ (some h) (some k) (some e) none none idx "local"
        stA).1.map (fun pa => pa.1.accessManagement.edvId)) =
      Except.ok (some e) ∧
    ((initializeAccessManagement (envRec (recOf prof acct sq (Zcap.mk rp aa cc it pp))) (some p)
        ⟨tf, pz⟩ ⟨nm, tf2⟩ (some h) (some k) (some e) none none idx "local"
        stA).1.map (fun pa => pa.1.type)) =
      Except.ok (typeFold ["User", "Profile"] tf.toList) ∧
    (typeFold ["User", "Profile"] tf.toList).take 2 = ["User", "Profile"] ∧
    ((initializeAccessManagement (envRec (recOf prof acct sq (Zcap.mk rp aa cc it pp))) (some p)
        ⟨tf, pz⟩ ⟨nm, tf2⟩ (some h) (some k) (some e) none none idx "local"
        stA).1.map (fun pa => pa.2.zcaps.isEmpty)) =
      Except.ok false := by
  refine ⟨?_, ?_, typeFold_take_two _ _ _, ?_⟩ <;>
  simp +decide [initializeAccessManagement, getProfileSigner, getAgent,
    _getAgentRecord, getCapability, _getInvocationSigner,
    _getProfileInvocationZcapKeyReferenceId, _delegateProfileUserDocZcap,
    _delegateAgentRecordZcaps, delegateEdvCapabilities, assertNonEmptyString,
    buildZcapMapByRef, cacheHas, cacheNewNs, nsGet, nsSet, reqGet, reqSet,
    reqDel, readCapAgent, lookupA, setA, delA, jsStr, strTruthy, M.bind,
    M.pure, M.throw, M.emit, M.getS, M.modify, M.attempt, M.lift, Bind.bind,
    Pure.pure, instMonadM, hp, he, hsw, hew, hne1, hne2, hne3, hne4,
    utils.delegateCapability, Signer.jsId, castZcap, castRecord, zcapTruthy,
    stA, initState, caA, envRec, envB, recOf, zDummy, spreadTarget,
    parentTarget, Parent.targetIdJs, Zcap.targetId, Zcap.targetType,
    EdvClientM.ensureIndex, Zcap.referenceId, Zcap.allowedAction,
    Zcap.controller, Zcap.invocationTarget, Zcap.parentCapability,
    Except.map, List.isEmpty]

/-- C9 witness: the theorem applied at the concrete bootstrap call of the
spec's testable property. -/
theorem c9_bootstrap_shape_witness :
    jsStartsWith "did:v1:test:abc-key-capabilityInvocation"
      "did:v1:test:abc" = true ∧
    jsEndsWith "did:v1:test:abc-key-capabilityInvocation"
      "-key-capabilityInvocation" = true ∧
    ((initializeAccessManagement (envRec (recOf "p" "a" 0
        (Zcap.mk "did:v1:test:abc-key-capabilityInvocation" none none none
          none)))
        (some "did:v1:test:abc") ⟨TypeField.absent, []⟩
        ⟨none, TypeField.absent⟩
        (some ⟨"https://kms/h1", "Sha256HmacKey2019"⟩)
        (some ⟨"https://kms/k1", "X25519KeyAgreementKey2019"⟩)
        (some "https://edvs/edv1") none none [] "local" stA).1.map
      (fun pa => pa.1.accessManagement.edvId)) =
      Except.ok (some "https://edvs/edv1") := by
  refine ⟨by decide, by decide, ?_⟩
  exact (c9_bootstrap_shape "did:v1:test:abc" "https://edvs/edv1" "p" "a" 0
    ⟨"https://kms/h1", "Sha256HmacKey2019"⟩
    ⟨"https://kms/k1", "X25519KeyAgreementKey2019"⟩
    "did:v1:test:abc-key-capabilityInvocation" none none none none
    TypeField.absent TypeField.absent none [] []
    rfl rfl (by decide) (by decide) (by decide) (by decide) (by decide)
    (by decide)).1

end PM
